import Mathlib

/-!
Verification of the Geo-Equity Index dashboard core
(`geo_equity_index_dashboard.py`).

The development shallowly embeds the geospatial query engine of the
dashboard: the geocode cache (`get_coordinates`), the haversine distance
(`haversine_distance`), the zoom step function
(`calculate_zoom_for_radius`), the two spatial filters
(`filter_cimc_within_radius`, `filter_census_tracts_within_radius`),
point-in-polygon tract attribution (`get_census_tract_info`), the
load-time score ranges, and the composition path
`update_map` / `create_map_figure`.

Numeric cells are modelled as exact rationals (`ℚ`); float NaN and
unparsable cells are modelled explicitly by the `Cell` type.  The
haversine formula itself is modelled over the real numbers; the hazard
filter is stated for an arbitrary distance function so that its
list-processing structure (validity filtering, radius cut, distance
attachment, ascending sort) is verified for every distance function,
in particular the haversine one.  Geometry predicates supplied by the
shapely/geopandas libraries (`geometry.contains`, geometry bounds) are
modelled as abstract fields of a tract record, since they are external
library code, not code of this repository.
-/

namespace GeoEquity

/-- A cell of a tabular (pandas) column, as seen by the dashboard code.
`num q` is a finite numeric value, `strNum q` a numeric string (Python
`float` parses it), `nan` a float NaN (`float` succeeds, `pd.notna`
fails), `null` a missing value (`float(None)` raises `TypeError`), and
`strBad` a non-numeric string (`float` raises `ValueError`). -/
inductive Cell where
  | num (q : ℚ)
  | strNum (q : ℚ)
  | nan
  | null
  | strBad (s : String)
deriving DecidableEq, Repr

/-- The joint effect of `float(cell)` followed by `pd.notna` in the loop
body of `filter_cimc_within_radius` (lines 299-309): a finite numeric
value survives, everything else is skipped (exception or notna test). -/
def validCoord : Cell → Option ℚ
  | .num q => some q
  | .strNum q => some q
  | .nan => none
  | .null => none
  | .strBad _ => none

/-- One record of the CIMC hazard-site table: the `LATITUDE` and
`LONGITUDE` cells, the `Hazard_Score` cell (`none` models NaN/absent),
and an identifier standing for the remaining descriptive columns. -/
structure CimcRow where
  id : ℕ
  lat : Cell
  lon : Cell
  hazardScore : Option ℚ
deriving DecidableEq, Repr

/-- The loaded CIMC dataframe: whether the `LATITUDE` / `LONGITUDE`
columns are present (checked at lines 290-293) and the rows. -/
structure CimcData where
  hasLatCol : Bool
  hasLonCol : Bool
  rows : List CimcRow
deriving DecidableEq, Repr

/-- A census-tract record of `census_tracts_gdf`.  The polygon geometry
is abstracted by its shapely interface: `containsPt lon lat` models
`geometry.contains(Point(lon, lat))`,
`intersectsBox xmin ymin xmax ymax` models
`geometry.intersects(box(xmin, ymin, xmax, ymax))` (the test the
geopandas `.cx` indexer applies to the actual geometry), and
`minx/maxx/miny/maxy` model the geometry bounds.  For a real geometry
the intersects-test succeeding implies the bounds overlap the box,
since the geometry lies inside its own bounds; theorems that need this
take it as an explicit hypothesis. -/
structure CensusTract where
  geoid : String
  name : String
  state : String
  geiOverall : Option ℚ
  geiHealth : Option ℚ
  geiSocio : Option ℚ
  geiEnv : Option ℚ
  containsPt : ℚ → ℚ → Bool
  intersectsBox : ℚ → ℚ → ℚ → ℚ → Bool
  minx : ℚ
  maxx : ℚ
  miny : ℚ
  maxy : ℚ

/-- The info dict built by `get_census_tract_info` (lines 258-266). -/
structure TractInfo where
  geoid : String
  name : String
  state : String
  gei_overall_score : Option ℚ
  gei_health_score : Option ℚ
  gei_socio_score : Option ℚ
  gei_env_score : Option ℚ
deriving DecidableEq, Repr

/-- Field extraction of `get_census_tract_info` (lines 258-266). -/
def tractInfoOf (t : CensusTract) : TractInfo :=
  { geoid := t.geoid
    name := t.name
    state := t.state
    gei_overall_score := t.geiOverall
    gei_health_score := t.geiHealth
    gei_socio_score := t.geiSocio
    gei_env_score := t.geiEnv }

/-- `calculate_zoom_for_radius` (lines 167-193): a step function of the
display diameter `radius_miles * 3`. -/
def calculate_zoom_for_radius (radius_miles : ℚ) : ℕ :=
  let display_diameter := radius_miles * 3
  if display_diameter ≤ 5 then 13
  else if display_diameter ≤ 10 then 12
  else if display_diameter ≤ 20 then 11
  else if display_diameter ≤ 40 then 10
  else if display_diameter ≤ 80 then 9
  else if display_diameter ≤ 150 then 8
  else if display_diameter ≤ 300 then 7
  else 6

/-- Zoom selection of `create_map_figure` (lines 349-352): the manual
zoom override wins when supplied, otherwise the automatic zoom. -/
def zoom_to_use (zoom_level : Option ℕ) (radius_miles : ℚ) : ℕ :=
  match zoom_level with
  | some z => z
  | none => calculate_zoom_for_radius radius_miles

/-- Degree-to-radian conversion, the `map(radians, ...)` step of
`haversine_distance` (line 160). -/
noncomputable def radiansOf (x : ℝ) : ℝ :=
  x * Real.pi / 180

/-- `haversine_distance` (lines 158-165), over the real numbers:
`a = sin(dlat/2)^2 + cos(lat1) cos(lat2) sin(dlon/2)^2`,
`c = 2 asin(sqrt a)`, result `c * 3956` miles. -/
noncomputable def haversine_distance (lat1 lon1 lat2 lon2 : ℝ) : ℝ :=
  2 * Real.arcsin (Real.sqrt
      (Real.sin ((radiansOf lat2 - radiansOf lat1) / 2) ^ 2 +
        Real.cos (radiansOf lat1) * Real.cos (radiansOf lat2) *
          Real.sin ((radiansOf lon2 - radiansOf lon1) / 2) ^ 2)) * 3956

/-- The loop body of `filter_cimc_within_radius` (lines 299-309): parse
both coordinate cells; when both are finite numbers and the distance is
within the radius, append the distance to `distances` (first component)
and the row to `valid_indices` (second component); otherwise leave the
accumulator unchanged (the `except ... continue` / `notna` skip). -/
def stepRow (dist : ℚ → ℚ → ℚ → ℚ → ℚ) (clat clon r : ℚ)
    (acc : List ℚ × List CimcRow) (row : CimcRow) : List ℚ × List CimcRow :=
  match validCoord row.lat, validCoord row.lon with
  | some la, some lo =>
    if dist clat clon la lo ≤ r then
      (acc.1 ++ [dist clat clon la lo], acc.2 ++ [row])
    else acc
  | _, _ => acc

/-- `filter_cimc_within_radius` (lines 281-316), with the distance
function as a parameter (the dashboard passes `haversine_distance`,
whose float version is modelled separately over `ℝ`).  Returns the
(row, distance) pairs: `none` dataset and missing coordinate columns
give the empty frame; otherwise the loop runs, and a nonempty
collection is sorted ascending by the attached distance
(`sort_values`, a stable sort, modelled by `List.mergeSort`). -/
def filter_cimc_within_radius (dist : ℚ → ℚ → ℚ → ℚ → ℚ)
    (data : Option CimcData) (center_lat center_lon radius_miles : ℚ) :
    List (CimcRow × ℚ) :=
  match data with
  | none => []
  | some cd =>
    if cd.hasLatCol && cd.hasLonCol then
      let acc := cd.rows.foldl (stepRow dist center_lat center_lon radius_miles) ([], [])
      if acc.2.isEmpty then []
      else (acc.2.zip acc.1).mergeSort (fun p q => decide (p.2 ≤ q.2))
    else []

/-- The hazard filter as the spec states it: the sites with valid
(finite numeric) coordinates whose distance from the center is at most
the radius, each with its computed distance attached, in dataset
order. -/
def hazardFilterSpec (dist : ℚ → ℚ → ℚ → ℚ → ℚ) (clat clon r : ℚ)
    (rows : List CimcRow) : List (CimcRow × ℚ) :=
  rows.filterMap fun row =>
    match validCoord row.lat, validCoord row.lon with
    | some la, some lo =>
      if dist clat clon la lo ≤ r then some (row, dist clat clon la lo)
      else none
    | _, _ => none

/-- `filter_census_tracts_within_radius` (lines 318-344): `none`
(unavailable) when the tract dataset never loaded; otherwise the
geopandas `.cx[min_lon:max_lon, min_lat:max_lat]` selection with
`radius_degrees = radius_miles * 1.2 / 69`, which keeps the rows whose
actual geometry intersects the query rectangle
(`obj.intersects(box(xmin, ymin, xmax, ymax))`).  The `except` branch
(lines 342-344) returns `None` if the library call raises; the model
covers the non-raising path. -/
def filter_census_tracts_within_radius (gdf : Option (List CensusTract))
    (center_lat center_lon radius_miles : ℚ) : Option (List CensusTract) :=
  match gdf with
  | none => none
  | some ts =>
    let radius_degrees := radius_miles * 1.2 / 69
    let min_lat := center_lat - radius_degrees
    let max_lat := center_lat + radius_degrees
    let min_lon := center_lon - radius_degrees
    let max_lon := center_lon + radius_degrees
    some (ts.filter fun t => t.intersectsBox min_lon min_lat max_lon max_lat)

/-- The spec-side notion for the tract filter: two axis-aligned closed
boxes intersect when they share a point. -/
def boxesIntersect (aMinX aMaxX aMinY aMaxY bMinX bMaxX bMinY bMaxY : ℚ) : Prop :=
  ∃ x y : ℚ,
    (aMinX ≤ x ∧ x ≤ aMaxX ∧ aMinY ≤ y ∧ y ≤ aMaxY) ∧
    (bMinX ≤ x ∧ x ≤ bMaxX ∧ bMinY ≤ y ∧ y ≤ bMaxY)

/-- `get_census_tract_info` (lines 239-278): `none` when the tract
dataset never loaded; otherwise the first tract (in dataset order)
whose geometry contains the point `Point(lon, lat)`, with its info
fields extracted, or `none` when no tract contains the point. -/
def get_census_tract_info (gdf : Option (List CensusTract)) (lat lon : ℚ) :
    Option TractInfo :=
  match gdf with
  | none => none
  | some ts =>
    match ts.find? (fun t => t.containsPt lon lat) with
    | some t => some (tractInfoOf t)
    | none => none

/-- pandas `Series.min`: the minimum over present (non-NaN) values,
NaN when no value is present. -/
def seriesMin (xs : List (Option ℚ)) : Option ℚ :=
  (xs.filterMap id).min?

/-- pandas `Series.max`: the maximum over present (non-NaN) values,
NaN when no value is present. -/
def seriesMax (xs : List (Option ℚ)) : Option ℚ :=
  (xs.filterMap id).max?

/-- The GEI score range of `load_census_tracts` (lines 85-91): rows
whose `GEI_overall_score` differs from `-999` are kept (a NaN score
also passes the `!= -999` comparison and is then skipped by `min` /
`max`), then the column minimum and maximum are taken. -/
def load_gei_range (tracts : List CensusTract) : Option ℚ × Option ℚ :=
  let valid_gei :=
    (tracts.map (·.geiOverall)).filter (fun s => decide (s ≠ some (-999)))
  (seriesMin valid_gei, seriesMax valid_gei)

/-- The hazard score range of `load_cimc_data` (lines 44-48): the plain
column minimum and maximum of `Hazard_Score`, with no sentinel
exclusion. -/
def load_hazard_range (rows : List CimcRow) : Option ℚ × Option ℚ :=
  (seriesMin (rows.map (·.hazardScore)), seriesMax (rows.map (·.hazardScore)))

/-- The resolved triple `(latitude, longitude, canonical address)`. -/
abbrev GeoTriple := ℚ × ℚ × String

/-- The `geocode_cache` dict, as an association list (first match wins,
keys are unique because insertion only happens on a miss). -/
abbrev GeocodeCache := List (String × GeoTriple)

/-- Outcome of the `geolocator.geocode` provider call: a truthy
location, a `None` result (no match), or a raised exception. -/
inductive ProviderResult where
  | ok (lat lon : ℚ) (addr : String)
  | noMatch
  | raises (msg : String)

def cacheLookup : GeocodeCache → String → Option GeoTriple
  | [], _ => none
  | (k, v) :: rest, a => if k = a then some v else cacheLookup rest a

/-- `get_coordinates` (lines 221-237), with the cache passed and
returned explicitly: a cache hit returns the stored triple; on a miss
the provider is consulted — a truthy location is cached and returned, a
`None` result or a raised exception yields `(None, None, None)` with
the cache untouched. -/
def get_coordinates (provider : String → ProviderResult)
    (cache : GeocodeCache) (address : String) :
    Option GeoTriple × GeocodeCache :=
  match cacheLookup cache address with
  | some t => (some t, cache)
  | none =>
    match provider address with
    | .ok lat lon addr =>
      (some (lat, lon, addr), cache ++ [(address, (lat, lon, addr))])
    | .noMatch => (none, cache)
    | .raises _ => (none, cache)

/-- The figure assembled for the dashboard, reduced to the data the
claims are about: the not-found annotation figure (lines 359-370) or
the layered search map centred on the resolved coordinate with its zoom
and the number of plotted CIMC sites. -/
inductive Fig where
  | annotated (text : String) (title : String)
  | searchMap (lat lon : ℚ) (zoom : ℕ) (cimcCount : ℕ)
deriving DecidableEq, Repr

/-- The two return shapes of `create_map_figure`: the geocode-failure
branch returns a 3-tuple `(fig, status, 0)` (line 371) while the
success branch returns a 4-tuple
`(fig, formatted_address, cimc_count, census_info)` (line 629). -/
inductive CreateMapResult where
  | tuple3 (fig : Fig) (status : String) (count : ℕ)
  | tuple4 (fig : Fig) (formattedAddress : String) (count : ℕ)
      (censusInfo : Option TractInfo)
deriving DecidableEq, Repr

/-- `create_map_figure` (lines 346-629), with the geocoder abstracted
as a function from the address to an optional resolved triple (the
cache threading of `get_coordinates` is modelled separately).  On
geocode failure it returns the explicit address-not-found 3-tuple; on
success it returns the 4-tuple with the map, canonical address, CIMC
count within the radius, and the containing-tract info. -/
def create_map_figure (geocode : String → Option GeoTriple)
    (cimc : Option CimcData) (tracts : Option (List CensusTract))
    (dist : ℚ → ℚ → ℚ → ℚ → ℚ) (address : String) (radius_miles : ℚ)
    (zoom_level : Option ℕ) : CreateMapResult :=
  let zoomUsed := zoom_to_use zoom_level radius_miles
  match geocode address with
  | none =>
    .tuple3
      (.annotated ("Could not find coordinates for: " ++ address)
        "Error: Address Not Found")
      ("Address not found: " ++ address) 0
  | some (lat, lon, formatted_address) =>
    let nearby_cimc := filter_cimc_within_radius dist cimc lat lon radius_miles
    let cimc_count := nearby_cimc.length
    let census_info := get_census_tract_info tracts lat lon
    .tuple4 (.searchMap lat lon zoomUsed cimc_count) formatted_address
      cimc_count census_info

/-- Python `radius or 10` (line 892): `None` and the falsy number `0`
both give the default `10`; every other number passes through. -/
def pyOrTen (radius : Option ℚ) : ℚ :=
  match radius with
  | none => 10
  | some r => if r = 0 then 10 else r

/-- The radius validation of `update_map` (line 892):
`max(0, min(25, radius or 10))`. -/
def update_map_radius (radius : Option ℚ) : ℚ :=
  max 0 (min 25 (pyOrTen radius))

/-- Python `str.strip()`: drop whitespace from both ends. -/
def pyStrip (s : String) : String :=
  ⟨((s.data.dropWhile Char.isWhitespace).reverse.dropWhile
      Char.isWhitespace).reverse⟩

/-- The outcome of the `update_map` callback, reduced to the cases the
claims are about: the missing-dataset message, the enter-an-address
prompt, a rendered figure, or the generic error message of the
`except Exception` handler (lines 1047-1049). -/
inductive UpdateOutcome where
  | missingData
  | prompt (msg : String)
  | rendered (fig : Fig) (status : String)
  | errorCaught (msg : String)
deriving DecidableEq, Repr

/-- `update_map` (lines 877-1049): bail out when the CIMC dataset never
loaded; prompt when the address is `None` or blank after stripping;
otherwise validate the radius and call `create_map_figure`.  The call
site (line 895) unpacks the result into four names, so the 3-tuple of
the geocode-failure branch raises
`ValueError: not enough values to unpack (expected 4, got 3)`, which
the enclosing `except Exception` handler turns into the generic error
message. -/
def update_map (data_loaded : Bool)
    (geocode : String → Option GeoTriple) (cimc : Option CimcData)
    (tracts : Option (List CensusTract)) (dist : ℚ → ℚ → ℚ → ℚ → ℚ)
    (address : Option String) (radius : Option ℚ) : UpdateOutcome :=
  if data_loaded = false then .missingData
  else
    match address with
    | none => .prompt "Enter an address to search for CIMC sites"
    | some s =>
      if pyStrip s = "" then .prompt "Enter an address to search for CIMC sites"
      else
        let r := update_map_radius radius
        match create_map_figure geocode cimc tracts dist (pyStrip s) r none with
        | .tuple3 _ _ _ =>
          .errorCaught "Error: not enough values to unpack (expected 4, got 3)"
        | .tuple4 fig _ _ _ => .rendered fig ""

/-- A distance function used for concrete witnesses: the latitude of
the site (enough to exercise the filter logic). -/
def exDist : ℚ → ℚ → ℚ → ℚ → ℚ := fun _ _ la _ => la

/-- Concrete hazard rows for witnesses. -/
def exRow1 : CimcRow := ⟨1, .num 1, .num 2, some 3⟩

def exRow2 : CimcRow := ⟨2, .nan, .num 2, none⟩

def exRow3 : CimcRow := ⟨3, .num 5, .num 4, some 1⟩

def exFarRow : CimcRow := ⟨9, .num 50, .num 50, none⟩

def exCimc : CimcData := ⟨true, true, [exRow1, exRow2, exRow3]⟩

/-- A concrete tract for witnesses: the filled unit square around the
origin, whose point-containment test is stubbed to false.  Because the
geometry is its own bounding box, its intersects-test is the exact
rectangle-overlap condition. -/
def exTractSquare : CensusTract :=
  ⟨"06001400100", "Census Tract 4001.00", "CA", some 0.3, none, none, none,
    fun _ _ => false,
    fun x1 y1 x2 y2 =>
      decide (x1 ≤ 1) && decide (-1 ≤ x2) && decide (y1 ≤ 1) &&
        decide (-1 ≤ y2),
    -1, 1, -1, 1⟩

/-- A concrete tract for witnesses that contains every point and
intersects every box. -/
def exTractEverywhere : CensusTract :=
  ⟨"06001400200", "Census Tract 4002.00", "CA", some 0.5, none, none, none,
    fun _ _ => true, fun _ _ _ _ => true, -1, 1, -1, 1⟩

/-- A tract whose geometry misses the small query box around the
origin even though its bounding box covers it: models a ring-shaped
polygon with bounds `[-1, 1] × [-1, 1]` and a hole containing the
neighbourhood of the origin, so its intersects-test fails for the
small query boxes used below. -/
def exTractRing : CensusTract :=
  ⟨"06001400300", "Census Tract 4003.00", "CA", some 0.4, none, none, none,
    fun _ _ => false, fun _ _ _ _ => false, -1, 1, -1, 1⟩

/-- Concrete hazard rows whose scores are 2, the sentinel -999, and
-1000 (below the sentinel). -/
def exHazRowA : CimcRow := ⟨21, .num 0, .num 0, some 2⟩

def exHazRowB : CimcRow := ⟨22, .num 0, .num 0, some (-999)⟩

def exHazRowC : CimcRow := ⟨23, .num 0, .num 0, some (-1000)⟩

/-- Concrete tracts with GEI overall scores 0.1, 0.5 and the sentinel
-999 (the example of the claim); the geometry tests are stubbed, since
only the score column matters here. -/
def exTractA : CensusTract :=
  ⟨"A", "Tract A", "CA", some 0.1, none, none, none, fun _ _ => false,
    fun _ _ _ _ => false, 0, 0, 0, 0⟩

def exTractB : CensusTract :=
  ⟨"B", "Tract B", "CA", some 0.5, none, none, none, fun _ _ => false,
    fun _ _ _ _ => false, 0, 0, 0, 0⟩

def exTractC : CensusTract :=
  ⟨"C", "Tract C", "CA", some (-999), none, none, none, fun _ _ => false,
    fun _ _ _ _ => false, 0, 0, 0, 0⟩

/-- A provider that always resolves, and one that always raises, for
witnesses. -/
def exProviderOk : String → ProviderResult := fun _ => .ok 1 2 "1 Main St"

def exProviderDown : String → ProviderResult := fun _ => .raises "timeout"

/-- A constant distance function: every site is 3 miles from every
center. -/
def exDist3 : ℚ → ℚ → ℚ → ℚ → ℚ := fun _ _ _ _ => 3

/-- A geocoder that resolves every address to `(1, 2)`. -/
def exGeo : String → Option GeoTriple := fun _ => some (1, 2, "1 Main St")

/-- A one-row CIMC dataset whose single site has valid coordinates. -/
def exCimcOne : CimcData := ⟨true, true, [exRow1]⟩

lemma sin_half_sub_sq_comm (x y : ℝ) :
    Real.sin ((x - y) / 2) ^ 2 = Real.sin ((y - x) / 2) ^ 2 := by
  rw [show (x - y) / 2 = -((y - x) / 2) by ring, Real.sin_neg, neg_sq]

lemma stepRow_foldl (dist : ℚ → ℚ → ℚ → ℚ → ℚ) (clat clon r : ℚ)
    (rows : List CimcRow) :
    ∀ ds vs, rows.foldl (stepRow dist clat clon r) (ds, vs) =
      (ds ++ (hazardFilterSpec dist clat clon r rows).map Prod.snd,
       vs ++ (hazardFilterSpec dist clat clon r rows).map Prod.fst) := by
  induction rows with
  | nil => intro ds vs; simp [hazardFilterSpec]
  | cons row rest ih =>
    intro ds vs
    cases hla : validCoord row.lat with
    | none =>
      simp [stepRow, hla, ih, hazardFilterSpec, List.filterMap_cons]
    | some la =>
      cases hlo : validCoord row.lon with
      | none =>
        simp [stepRow, hla, hlo, ih, hazardFilterSpec, List.filterMap_cons]
      | some lo =>
        by_cases hd : dist clat clon la lo ≤ r
        · simp [stepRow, hla, hlo, hd, ih, hazardFilterSpec,
            List.filterMap_cons, List.append_assoc]
        · simp [stepRow, hla, hlo, hd, ih, hazardFilterSpec,
            List.filterMap_cons]

lemma zip_of_component_maps {α β : Type} (l : List (α × β)) :
    (l.map Prod.fst).zip (l.map Prod.snd) = l := by
  induction l with
  | nil => rfl
  | cons p rest ih => simp [ih]

lemma interval_intersect (a b c d : ℚ) (hab : a ≤ b) (hcd : c ≤ d) :
    (∃ x, a ≤ x ∧ x ≤ b ∧ c ≤ x ∧ x ≤ d) ↔ c ≤ b ∧ a ≤ d := by
  constructor
  · rintro ⟨x, h1, h2, h3, h4⟩
    exact ⟨le_trans h3 h2, le_trans h1 h4⟩
  · rintro ⟨h1, h2⟩
    exact ⟨max a c, le_max_left _ _, max_le hab h1, le_max_right _ _,
      max_le h2 hcd⟩

lemma exHaz_min_eval :
    (load_hazard_range [exHazRowA, exHazRowB]).1 = some (-999) := by
  show seriesMin [some 2, some (-999)] = some (-999)
  unfold seriesMin
  simp [List.min?, min_def]
  intro h
  norm_num at h

lemma exHaz_max_eval :
    (load_hazard_range [exHazRowC, exHazRowB]).2 = some (-999) := by
  show seriesMax [some (-1000), some (-999)] = some (-999)
  unfold seriesMax
  simp [List.max?, max_def]
  norm_num

lemma antisymmLEQ : Std.Antisymm (fun a b : ℚ => a ≤ b) :=
  ⟨fun h h' => le_antisymm h h'⟩

lemma seriesMin_eq_some_iff (xs : List (Option ℚ)) (m : ℚ) :
    seriesMin xs = some m ↔
      some m ∈ xs ∧ ∀ q : ℚ, some q ∈ xs → m ≤ q := by
  haveI := antisymmLEQ
  unfold seriesMin
  rw [List.min?_eq_some_iff (fun a => le_refl a) (fun a b => min_choice a b)
    (fun a b c => le_min_iff)]
  simp only [List.mem_filterMap, id_eq]
  constructor
  · rintro ⟨⟨a, ha, rfl⟩, hmin⟩
    exact ⟨ha, fun q hq => hmin q ⟨some q, hq, rfl⟩⟩
  · rintro ⟨hm, hmin⟩
    exact ⟨⟨some m, hm, rfl⟩, fun b ⟨a, ha, hab⟩ => hmin b (hab ▸ ha)⟩

lemma seriesMax_eq_some_iff (xs : List (Option ℚ)) (m : ℚ) :
    seriesMax xs = some m ↔
      some m ∈ xs ∧ ∀ q : ℚ, some q ∈ xs → q ≤ m := by
  haveI := antisymmLEQ
  unfold seriesMax
  rw [List.max?_eq_some_iff (fun a => le_refl a) (fun a b => max_choice a b)
    (fun a b c => max_le_iff)]
  simp only [List.mem_filterMap, id_eq]
  constructor
  · rintro ⟨⟨a, ha, rfl⟩, hmax⟩
    exact ⟨ha, fun q hq => hmax q ⟨some q, hq, rfl⟩⟩
  · rintro ⟨hm, hmax⟩
    exact ⟨⟨some m, hm, rfl⟩, fun b ⟨a, ha, hab⟩ => hmax b (hab ▸ ha)⟩

lemma mem_gei_valid_iff (tracts : List CensusTract) (q : ℚ) :
    some q ∈ (tracts.map (·.geiOverall)).filter
        (fun s => decide (s ≠ some (-999))) ↔
      (∃ t ∈ tracts, t.geiOverall = some q) ∧ q ≠ -999 := by
  simp only [List.mem_filter, List.mem_map, decide_eq_true_eq, ne_eq,
    Option.some.injEq]

lemma cacheLookup_append_self (c : GeocodeCache) (a : String)
    (t : GeoTriple) (h : cacheLookup c a = none) :
    cacheLookup (c ++ [(a, t)]) a = some t := by
  induction c with
  | nil => simp [cacheLookup]
  | cons kv rest ih =>
    obtain ⟨k, v⟩ := kv
    by_cases hk : k = a
    · simp [cacheLookup, hk] at h
    · simp only [cacheLookup, hk, if_false, List.cons_append] at h ⊢
      exact ih h

/-- Claim C1: for every distance function (in particular the haversine
distance the dashboard passes), center and radius, the hazard filter
returns exactly the rows with valid (non-null, finite numeric)
coordinates whose distance from the center is at most the radius
(inclusive), with the computed distance attached (a permutation of the
spec-order list), and the returned list is sorted ascending by the
attached distance; rows with missing or non-numeric coordinates are
skipped without failing. -/
theorem cimc_filter_matches_spec (dist : ℚ → ℚ → ℚ → ℚ → ℚ)
    (cd : CimcData) (clat clon r : ℚ)
    (hlat : cd.hasLatCol = true) (hlon : cd.hasLonCol = true) :
    (filter_cimc_within_radius dist (some cd) clat clon r).Perm
        (hazardFilterSpec dist clat clon r cd.rows) ∧
    List.Pairwise (fun p q : CimcRow × ℚ => p.2 ≤ q.2)
        (filter_cimc_within_radius dist (some cd) clat clon r) := by
  have hfold := stepRow_foldl dist clat clon r cd.rows [] []
  simp only [List.nil_append] at hfold
  simp only [filter_cimc_within_radius, hlat, hlon, Bool.and_self,
    if_true, hfold]
  by_cases hemp : hazardFilterSpec dist clat clon r cd.rows = []
  · simp [hemp]
  · have hne : ((hazardFilterSpec dist clat clon r cd.rows).map Prod.fst).isEmpty = false := by
      simp [List.isEmpty_iff, hemp]
    rw [hne]
    simp only [Bool.false_eq_true, if_false,
      zip_of_component_maps (hazardFilterSpec dist clat clon r cd.rows)]
    constructor
    · exact List.mergeSort_perm _ _
    · have hs := @List.sorted_mergeSort (CimcRow × ℚ)
        (fun p q : CimcRow × ℚ => decide (p.2 ≤ q.2))
        (fun a b c hab hbc => by
          simp only [decide_eq_true_eq] at *
          exact le_trans hab hbc)
        (fun a b => by
          simp only [Bool.or_eq_true, decide_eq_true_eq]
          exact le_total _ _)
        (hazardFilterSpec dist clat clon r cd.rows)
      exact hs.imp (fun h => by simpa using h)

/-- Witness for `cimc_filter_matches_spec` on a concrete dataset with a
valid near row, a NaN-coordinate row and a too-far row. -/
theorem cimc_filter_matches_spec_witness :
    (filter_cimc_within_radius exDist (some exCimc) 0 0 5).Perm
        (hazardFilterSpec exDist 0 0 5 exCimc.rows) ∧
    List.Pairwise (fun p q : CimcRow × ℚ => p.2 ≤ q.2)
        (filter_cimc_within_radius exDist (some exCimc) 0 0 5) :=
  cimc_filter_matches_spec exDist exCimc 0 0 5 rfl rfl

/-- Claim C2 is a code bug: `create_map_figure` does build the explicit
address-not-found result for a failing geocoder, but it is a 3-tuple
while the `update_map` call site unpacks four values, so the entry
point surfaces the failure as the generic unpack error instead of the
"Address not found" status. -/
theorem update_map_not_found_internal_error :
    create_map_figure (fun _ => none) none none exDist "unknown place" 10
        none =
      .tuple3
        (.annotated "Could not find coordinates for: unknown place"
          "Error: Address Not Found")
        "Address not found: unknown place" 0 ∧
    update_map true (fun _ => none) none none exDist (some "unknown place")
        (some 10) =
      .errorCaught "Error: not enough values to unpack (expected 4, got 3)" := by
  constructor
  · rfl
  · rfl

/-- Counterexample for claim C3: `load_cimc_data` does not exclude the
`-999` sentinel from the hazard score range in either direction — a
dataset with scores `{2, -999}` yields `hazardMin = -999`, not the
claimed `2`, and a dataset with scores `{-1000, -999}` yields
`hazardMax = -999`, not the claimed `-1000`. -/
theorem hazard_range_includes_sentinel :
    (load_hazard_range [exHazRowA, exHazRowB]).1 = some (-999) ∧
    some (-999 : ℚ) ≠ some (2 : ℚ) ∧
    (load_hazard_range [exHazRowC, exHazRowB]).2 = some (-999) ∧
    some (-999 : ℚ) ≠ some (-1000 : ℚ) := by
  refine ⟨exHaz_min_eval, ?_, exHaz_max_eval, ?_⟩ <;>
    · simp only [ne_eq, Option.some.injEq]
      norm_num

/-- Claim C3 as amended: the GEI bounds `(geiMin, geiMax)` are the
minimum and maximum over present `GEI_overall_score` values excluding
the `-999` sentinel (in particular scores `{0.1, 0.5, -999}` give
bounds `(0.1, 0.5)`), but the hazard bounds are the plain minimum and
maximum over present `Hazard_Score` values with no sentinel exclusion:
both `hazardMin` (conjunct 4) and `hazardMax` (conjunct 5) are attained
by some present value and bound every present value, sentinel
included. -/
theorem score_ranges_characterization :
    (∀ (tracts : List CensusTract) (m : ℚ),
      (load_gei_range tracts).1 = some m →
      m ≠ -999 ∧ (∃ t ∈ tracts, t.geiOverall = some m) ∧
        ∀ t ∈ tracts, ∀ q : ℚ, t.geiOverall = some q → q ≠ -999 → m ≤ q) ∧
    (∀ (tracts : List CensusTract) (m : ℚ),
      (load_gei_range tracts).2 = some m →
      m ≠ -999 ∧ (∃ t ∈ tracts, t.geiOverall = some m) ∧
        ∀ t ∈ tracts, ∀ q : ℚ, t.geiOverall = some q → q ≠ -999 → q ≤ m) ∧
    load_gei_range [exTractA, exTractB, exTractC] = (some 0.1, some 0.5) ∧
    (∀ (rows : List CimcRow) (m : ℚ),
      (load_hazard_range rows).1 = some m →
      (∃ row ∈ rows, row.hazardScore = some m) ∧
        ∀ row ∈ rows, ∀ q : ℚ, row.hazardScore = some q → m ≤ q) ∧
    (∀ (rows : List CimcRow) (m : ℚ),
      (load_hazard_range rows).2 = some m →
      (∃ row ∈ rows, row.hazardScore = some m) ∧
        ∀ row ∈ rows, ∀ q : ℚ, row.hazardScore = some q → q ≤ m) := by
  refine ⟨?_, ?_, ?_, ?_, ?_⟩
  · intro tracts m hm
    rw [show (load_gei_range tracts).1 = seriesMin
        ((tracts.map (·.geiOverall)).filter (fun s => decide (s ≠ some (-999))))
      from rfl, seriesMin_eq_some_iff] at hm
    obtain ⟨hmem, hmin⟩ := hm
    obtain ⟨⟨t, ht, hq⟩, hne⟩ := (mem_gei_valid_iff tracts m).mp hmem
    exact ⟨hne, ⟨t, ht, hq⟩, fun u hu q hq' hqne =>
      hmin q ((mem_gei_valid_iff tracts q).mpr ⟨⟨u, hu, hq'⟩, hqne⟩)⟩
  · intro tracts m hm
    rw [show (load_gei_range tracts).2 = seriesMax
        ((tracts.map (·.geiOverall)).filter (fun s => decide (s ≠ some (-999))))
      from rfl, seriesMax_eq_some_iff] at hm
    obtain ⟨hmem, hmax⟩ := hm
    obtain ⟨⟨t, ht, hq⟩, hne⟩ := (mem_gei_valid_iff tracts m).mp hmem
    exact ⟨hne, ⟨t, ht, hq⟩, fun u hu q hq' hqne =>
      hmax q ((mem_gei_valid_iff tracts q).mpr ⟨⟨u, hu, hq'⟩, hqne⟩)⟩
  · show (seriesMin _, seriesMax _) = _
    simp only [exTractA, exTractB, exTractC, seriesMin, seriesMax,
      List.map_cons, List.map_nil]
    norm_num [List.filter, List.filterMap, List.min?, List.max?,
      List.foldl, min_def, max_def]
  · intro rows m hm
    rw [show (load_hazard_range rows).1 =
        seriesMin (rows.map (·.hazardScore)) from rfl,
      seriesMin_eq_some_iff] at hm
    obtain ⟨hmem, hmin⟩ := hm
    simp only [List.mem_map] at hmem
    obtain ⟨row, hrow, hs⟩ := hmem
    exact ⟨⟨row, hrow, hs⟩, fun u hu q hq =>
      hmin q (List.mem_map.mpr ⟨u, hu, hq⟩)⟩
  · intro rows m hm
    rw [show (load_hazard_range rows).2 =
        seriesMax (rows.map (·.hazardScore)) from rfl,
      seriesMax_eq_some_iff] at hm
    obtain ⟨hmem, hmax⟩ := hm
    simp only [List.mem_map] at hmem
    obtain ⟨row, hrow, hs⟩ := hmem
    exact ⟨⟨row, hrow, hs⟩, fun u hu q hq =>
      hmax q (List.mem_map.mpr ⟨u, hu, hq⟩)⟩

/-- Witness for `score_ranges_characterization`: the GEI minimum of the
claim's example dataset is 0.1, attained and a lower bound of the
non-sentinel scores; the hazard minimum of a `{2, -999}` dataset and
the hazard maximum of a `{-1000, -999}` dataset are attained and bound
every present score. -/
theorem score_ranges_characterization_witness :
    ((0.1 : ℚ) ≠ -999 ∧
      (∃ t ∈ [exTractA, exTractB, exTractC], t.geiOverall = some 0.1) ∧
      ∀ t ∈ [exTractA, exTractB, exTractC], ∀ q : ℚ,
        t.geiOverall = some q → q ≠ -999 → (0.1 : ℚ) ≤ q) ∧
    ((∃ row ∈ [exHazRowA, exHazRowB], row.hazardScore = some (-999)) ∧
      ∀ row ∈ [exHazRowA, exHazRowB], ∀ q : ℚ,
        row.hazardScore = some q → (-999 : ℚ) ≤ q) ∧
    ((∃ row ∈ [exHazRowC, exHazRowB], row.hazardScore = some (-999)) ∧
      ∀ row ∈ [exHazRowC, exHazRowB], ∀ q : ℚ,
        row.hazardScore = some q → q ≤ (-999 : ℚ)) :=
  ⟨score_ranges_characterization.1 [exTractA, exTractB, exTractC] 0.1
      (by rw [score_ranges_characterization.2.2.1]),
    score_ranges_characterization.2.2.2.1 [exHazRowA, exHazRowB] (-999)
      exHaz_min_eval,
    score_ranges_characterization.2.2.2.2 [exHazRowC, exHazRowB] (-999)
      exHaz_max_eval⟩

/-- Counterexample for claim C4: when the tract dataset failed to load,
`get_census_tract_info` returns `None` — the very value it returns when
no tract contains the point — not a distinct "Unavailable" value. -/
theorem tract_unavailable_equals_none :
    get_census_tract_info none 1 2 = none ∧
    get_census_tract_info (some [exTractSquare]) 1 2 = none ∧
    get_census_tract_info none 1 2 =
      get_census_tract_info (some [exTractSquare]) 1 2 :=
  ⟨rfl, rfl, rfl⟩

/-- Claim C4 as amended: a point contained in exactly one known polygon
is attributed to that polygon's tract record; a point contained in no
polygon yields `none`; and an unloaded dataset also yields `none` (the
same value as "no containing tract", not a distinct unavailable
marker). -/
theorem tract_attribution_characterization (lat lon : ℚ) :
    (∀ (ts : List CensusTract) (t : CensusTract), t ∈ ts →
      t.containsPt lon lat = true →
      (∀ u ∈ ts, u.containsPt lon lat = true → u = t) →
      get_census_tract_info (some ts) lat lon = some (tractInfoOf t)) ∧
    (∀ ts : List CensusTract, (∀ u ∈ ts, u.containsPt lon lat = false) →
      get_census_tract_info (some ts) lat lon = none) ∧
    get_census_tract_info none lat lon = none := by
  refine ⟨?_, ?_, rfl⟩
  · intro ts t hmem hc huniq
    have hsome : (ts.find? (fun u => u.containsPt lon lat)).isSome :=
      List.find?_isSome.mpr ⟨t, hmem, hc⟩
    obtain ⟨u, hu⟩ := Option.isSome_iff_exists.mp hsome
    have hut : u = t :=
      huniq u (List.mem_of_find?_eq_some hu)
        (@List.find?_some _ (fun v => v.containsPt lon lat) u ts hu)
    simp [get_census_tract_info, hu, hut]
  · intro ts hnone
    have hfind : ts.find? (fun u => u.containsPt lon lat) = none :=
      List.find?_eq_none.mpr (fun u hu => by simp [hnone u hu])
    simp [get_census_tract_info, hfind]

/-- Witness for `tract_attribution_characterization`: a point contained
in the single tract of a one-tract dataset is attributed to it, and an
unloaded dataset gives `none`. -/
theorem tract_attribution_characterization_witness :
    get_census_tract_info (some [exTractEverywhere]) 3 4 =
      some (tractInfoOf exTractEverywhere) ∧
    get_census_tract_info none 3 4 = none :=
  ⟨(tract_attribution_characterization 3 4).1 [exTractEverywhere]
      exTractEverywhere (by simp) rfl
      (fun u hu _ => by simpa using hu),
    (tract_attribution_characterization 3 4).2.2⟩

/-- Claim C5 is a code bug: `radius or 10` at the `update_map` entry
point treats the falsy number `0` like `None`, so a requested radius of
0 miles is replaced by the default 10 and a site 3 miles away is
included, while a radius that really were 0 would exclude it; clamping
works as specified for the other values (30 to 25, -5 to 0, 7
unchanged). -/
theorem radius_zero_becomes_ten :
    update_map_radius (some 0) = 10 ∧
    update_map_radius none = 10 ∧
    update_map_radius (some 30) = 25 ∧
    update_map_radius (some (-5)) = 0 ∧
    update_map_radius (some 7) = 7 ∧
    filter_cimc_within_radius exDist3 (some exCimcOne) 1 2
        (update_map_radius (some 0)) = [(exRow1, 3)] ∧
    filter_cimc_within_radius exDist3 (some exCimcOne) 1 2 0 = [] ∧
    update_map true exGeo (some exCimcOne) none exDist3 (some "1 Main St")
        (some 0) = .rendered (.searchMap 1 2 10 1) "" := by
  have h0 : update_map_radius (some 0) = 10 := by
    norm_num [update_map_radius, pyOrTen, min_def, max_def]
  have hspec : hazardFilterSpec exDist3 1 2 10 [exRow1] = [(exRow1, 3)] := by
    norm_num [hazardFilterSpec, validCoord, exRow1, exDist3, List.filterMap]
  have hfold := stepRow_foldl exDist3 1 2 10 [exRow1] [] []
  rw [hspec] at hfold
  simp only [List.map_cons, List.map_nil, List.nil_append] at hfold
  have hfilter10 :
      filter_cimc_within_radius exDist3 (some exCimcOne) 1 2 10 =
        [(exRow1, 3)] := by
    simp [filter_cimc_within_radius, exCimcOne, hfold,
      List.mergeSort_singleton]
  have hfilter0 :
      filter_cimc_within_radius exDist3 (some exCimcOne) 1 2 0 = [] := by
    have hspec0 : hazardFilterSpec exDist3 1 2 0 [exRow1] = [] := by
      norm_num [hazardFilterSpec, validCoord, exRow1, exDist3,
        List.filterMap]
    have hfold0 := stepRow_foldl exDist3 1 2 0 [exRow1] [] []
    rw [hspec0] at hfold0
    simp only [List.map_nil, List.nil_append] at hfold0
    simp [filter_cimc_within_radius, exCimcOne, hfold0]
  have hzoom : calculate_zoom_for_radius 10 = 10 := by
    norm_num [calculate_zoom_for_radius]
  refine ⟨h0, by norm_num [update_map_radius, pyOrTen, min_def, max_def],
    by norm_num [update_map_radius, pyOrTen, min_def, max_def],
    by norm_num [update_map_radius, pyOrTen, min_def, max_def],
    by norm_num [update_map_radius, pyOrTen, min_def, max_def],
    by rw [h0, hfilter10], hfilter0, ?_⟩
  have hstrip : pyStrip "1 Main St" = "1 Main St" := by decide
  simp only [update_map, hstrip, Bool.true_eq_false, if_false,
    create_map_figure, exGeo, h0, zoom_to_use, hzoom, hfilter10]
  rw [if_neg (by decide : ¬("1 Main St" = ""))]
  rfl

/-- Counterexample for claim C6: the geopandas `.cx` indexer tests the
actual geometry against the query rectangle, not the geometry's
bounding box, so a tract whose bounding box intersects the query box
while its geometry misses it (a ring-shaped polygon around the origin)
is not returned — the filter does not return exactly the tracts whose
bounding box intersects the query box. -/
theorem tract_filter_not_bbox_exact :
    filter_census_tracts_within_radius (some [exTractRing]) 0 0 1 = some [] ∧
    boxesIntersect exTractRing.minx exTractRing.maxx exTractRing.miny
      exTractRing.maxy (0 - 1 * 1.2 / 69) (0 + 1 * 1.2 / 69)
      (0 - 1 * 1.2 / 69) (0 + 1 * 1.2 / 69) := by
  constructor
  · rfl
  · unfold boxesIntersect
    refine ⟨0, 0, ?_, ?_⟩ <;> norm_num [exTractRing]

/-- Claim C6 as amended: the tract filter retains exactly the tracts
whose actual geometry intersects the query box of half-width
`radius * 1.2 / 69` degrees around the center (geopandas `.cx`
computes `obj.intersects(box(...))` on the geometry); since a geometry
lies inside its own bounds, every retained tract's bounding box
intersects the query box, but not conversely; an absent dataset yields
`none` (unavailable), distinct from the empty result `some []`. -/
theorem tract_filter_characterization (ts : List CensusTract)
    (clat clon r : ℚ) (hr : 0 ≤ r) (t : CensusTract)
    (hwfx : t.minx ≤ t.maxx) (hwfy : t.miny ≤ t.maxy)
    (hgeo : ∀ x1 y1 x2 y2, t.intersectsBox x1 y1 x2 y2 = true →
      x1 ≤ t.maxx ∧ t.minx ≤ x2 ∧ y1 ≤ t.maxy ∧ t.miny ≤ y2) :
    (t ∈ (filter_census_tracts_within_radius (some ts) clat clon r).getD [] ↔
      t ∈ ts ∧
      t.intersectsBox (clon - r * 1.2 / 69) (clat - r * 1.2 / 69)
        (clon + r * 1.2 / 69) (clat + r * 1.2 / 69) = true) ∧
    (t ∈ (filter_census_tracts_within_radius (some ts) clat clon r).getD [] →
      boxesIntersect t.minx t.maxx t.miny t.maxy
        (clon - r * 1.2 / 69) (clon + r * 1.2 / 69)
        (clat - r * 1.2 / 69) (clat + r * 1.2 / 69)) ∧
    filter_census_tracts_within_radius none clat clon r = none ∧
    (none : Option (List CensusTract)) ≠ some [] := by
  have hrd : 0 ≤ r * 1.2 / 69 := by positivity
  have hq1 : clon - r * 1.2 / 69 ≤ clon + r * 1.2 / 69 := by linarith
  have hq2 : clat - r * 1.2 / 69 ≤ clat + r * 1.2 / 69 := by linarith
  have hmem :
      t ∈ (filter_census_tracts_within_radius (some ts) clat clon r).getD [] ↔
        t ∈ ts ∧
        t.intersectsBox (clon - r * 1.2 / 69) (clat - r * 1.2 / 69)
          (clon + r * 1.2 / 69) (clat + r * 1.2 / 69) = true := by
    simp only [filter_census_tracts_within_radius, Option.getD_some,
      List.mem_filter]
  refine ⟨hmem, ?_, rfl, by simp⟩
  intro ht
  obtain ⟨-, hint⟩ := hmem.mp ht
  obtain ⟨hb1, hb2, hb3, hb4⟩ := hgeo _ _ _ _ hint
  unfold boxesIntersect
  obtain ⟨x, hx1, hx2, hx3, hx4⟩ :=
    (interval_intersect t.minx t.maxx (clon - r * 1.2 / 69)
      (clon + r * 1.2 / 69) hwfx hq1).mpr ⟨hb1, hb2⟩
  obtain ⟨y, hy1, hy2, hy3, hy4⟩ :=
    (interval_intersect t.miny t.maxy (clat - r * 1.2 / 69)
      (clat + r * 1.2 / 69) hwfy hq2).mpr ⟨hb3, hb4⟩
  exact ⟨x, y, ⟨hx1, hx2, hy1, hy2⟩, ⟨hx3, hx4, hy3, hy4⟩⟩

/-- Witness for `tract_filter_characterization` at a concrete dataset
(the filled unit square, whose intersects-test is the exact
rectangle-overlap condition), center and radius. -/
theorem tract_filter_characterization_witness :
    (exTractSquare ∈
        (filter_census_tracts_within_radius (some [exTractSquare]) 0 0 1).getD [] ↔
      exTractSquare ∈ [exTractSquare] ∧
      exTractSquare.intersectsBox (0 - 1 * 1.2 / 69) (0 - 1 * 1.2 / 69)
        (0 + 1 * 1.2 / 69) (0 + 1 * 1.2 / 69) = true) ∧
    (exTractSquare ∈
        (filter_census_tracts_within_radius (some [exTractSquare]) 0 0 1).getD [] →
      boxesIntersect exTractSquare.minx exTractSquare.maxx
        exTractSquare.miny exTractSquare.maxy
        (0 - 1 * 1.2 / 69) (0 + 1 * 1.2 / 69)
        (0 - 1 * 1.2 / 69) (0 + 1 * 1.2 / 69)) ∧
    filter_census_tracts_within_radius none 0 0 1 = none ∧
    (none : Option (List CensusTract)) ≠ some [] :=
  tract_filter_characterization [exTractSquare] 0 0 1 (by norm_num)
    exTractSquare (by norm_num [exTractSquare]) (by norm_num [exTractSquare])
    (fun x1 y1 x2 y2 h => by
      simp only [exTractSquare, Bool.and_eq_true, decide_eq_true_eq] at h ⊢
      tauto)

set_option maxHeartbeats 1600000 in
/-- Claim C7: the rendered zoom equals the override when one is
supplied and otherwise `calculate_zoom_for_radius radius`, which is the
step function of the display diameter `radius * 3` with thresholds
5, 10, 20, 40, 80, 150, 300 mapping to zooms 13 down to 6, and is
non-increasing in the radius. -/
theorem zoom_selection_characterization :
    (∀ z r, zoom_to_use (some z) r = z) ∧
    (∀ r, zoom_to_use none r = calculate_zoom_for_radius r) ∧
    (∀ r : ℚ,
      (calculate_zoom_for_radius r = 13 ↔ r * 3 ≤ 5) ∧
      (calculate_zoom_for_radius r = 12 ↔ 5 < r * 3 ∧ r * 3 ≤ 10) ∧
      (calculate_zoom_for_radius r = 11 ↔ 10 < r * 3 ∧ r * 3 ≤ 20) ∧
      (calculate_zoom_for_radius r = 10 ↔ 20 < r * 3 ∧ r * 3 ≤ 40) ∧
      (calculate_zoom_for_radius r = 9 ↔ 40 < r * 3 ∧ r * 3 ≤ 80) ∧
      (calculate_zoom_for_radius r = 8 ↔ 80 < r * 3 ∧ r * 3 ≤ 150) ∧
      (calculate_zoom_for_radius r = 7 ↔ 150 < r * 3 ∧ r * 3 ≤ 300) ∧
      (calculate_zoom_for_radius r = 6 ↔ 300 < r * 3)) ∧
    (∀ r₁ r₂ : ℚ, r₁ ≤ r₂ →
      calculate_zoom_for_radius r₂ ≤ calculate_zoom_for_radius r₁) := by
  refine ⟨fun z r => rfl, fun r => rfl, fun r => ?_, fun r₁ r₂ h => ?_⟩
  · simp only [calculate_zoom_for_radius]
    split_ifs with h1 h2 h3 h4 h5 h6 h7 <;>
      refine ⟨?_, ?_, ?_, ?_, ?_, ?_, ?_, ?_⟩ <;>
      (constructor <;> intro hx <;> first | rfl | omega | linarith | (exfalso; linarith) | (constructor <;> linarith))
  · simp only [calculate_zoom_for_radius]
    have h3 : r₁ * 3 ≤ r₂ * 3 := by linarith
    split_ifs <;> first | omega | (exfalso; linarith)

/-- Witness for `zoom_selection_characterization` at concrete inputs:
override 4 wins at radius 7, radius 2 gives zoom 12 through the
interval characterization, and zoom at radius 3 is at most zoom at
radius 1. -/
theorem zoom_selection_characterization_witness :
    zoom_to_use (some 4) 7 = 4 ∧
    (calculate_zoom_for_radius 2 = 12 ↔ 5 < (2 : ℚ) * 3 ∧ (2 : ℚ) * 3 ≤ 10) ∧
    calculate_zoom_for_radius 3 ≤ calculate_zoom_for_radius 1 :=
  ⟨zoom_selection_characterization.1 4 7,
   (zoom_selection_characterization.2.2.1 2).2.1,
   zoom_selection_characterization.2.2.2 1 3 (by norm_num)⟩

/-- Claim C8: on a cache miss, a failing provider (no match or raised
exception) makes `get_coordinates` return a not-found result with the
cache unmodified; a successful provider call returns the triple and
stores it under the address key, after which a repeat call with the
same address returns the cached triple for every provider — i.e.
without depending on any provider call. -/
theorem get_coordinates_contract (p p₂ : String → ProviderResult)
    (cache : GeocodeCache) (a : String)
    (hmiss : cacheLookup cache a = none) :
    ((p a = .noMatch ∨ ∃ m, p a = .raises m) →
      get_coordinates p cache a = (none, cache)) ∧
    (∀ lat lon addr, p a = .ok lat lon addr →
      get_coordinates p cache a =
        (some (lat, lon, addr), cache ++ [(a, (lat, lon, addr))]) ∧
      get_coordinates p₂ (cache ++ [(a, (lat, lon, addr))]) a =
        (some (lat, lon, addr), cache ++ [(a, (lat, lon, addr))])) := by
  constructor
  · intro hfail
    rcases hfail with hf | ⟨m, hf⟩ <;> simp [get_coordinates, hmiss, hf]
  · intro lat lon addr hok
    refine ⟨by simp [get_coordinates, hmiss, hok], ?_⟩
    simp [get_coordinates,
      cacheLookup_append_self cache a (lat, lon, addr) hmiss]

/-- Witness for `get_coordinates_contract`: a failing provider on an
empty cache yields a not-found result and no cache growth; a successful
provider stores the triple, and the repeat call is served from the
cache even when the provider is down. -/
theorem get_coordinates_contract_witness :
    get_coordinates exProviderDown [] "a st" = (none, []) ∧
    get_coordinates exProviderOk [] "a st" =
      (some (1, 2, "1 Main St"), [("a st", (1, 2, "1 Main St"))]) ∧
    get_coordinates exProviderDown [("a st", (1, 2, "1 Main St"))] "a st" =
      (some (1, 2, "1 Main St"), [("a st", (1, 2, "1 Main St"))]) :=
  ⟨(get_coordinates_contract exProviderDown exProviderDown [] "a st" rfl).1
      (Or.inr ⟨"timeout", rfl⟩),
    by exact
      ((get_coordinates_contract exProviderOk exProviderDown [] "a st" rfl).2
        1 2 "1 Main St" rfl).1,
    by exact
      ((get_coordinates_contract exProviderOk exProviderDown [] "a st" rfl).2
        1 2 "1 Main St" rfl).2⟩

/-- Claim C9: the haversine distance of a point to itself is exactly 0
(in the real-number model, so in particular within any floating
tolerance), and the haversine distance is symmetric in its two
coordinate arguments. -/
theorem haversine_identity_and_symmetry :
    (∀ lat lon : ℝ, haversine_distance lat lon lat lon = 0) ∧
    (∀ lat1 lon1 lat2 lon2 : ℝ,
      haversine_distance lat1 lon1 lat2 lon2 =
        haversine_distance lat2 lon2 lat1 lon1) := by
  constructor
  · intro lat lon
    simp [haversine_distance]
  · intro lat1 lon1 lat2 lon2
    unfold haversine_distance
    rw [sin_half_sub_sq_comm (radiansOf lat2) (radiansOf lat1),
      sin_half_sub_sq_comm (radiansOf lon2) (radiansOf lon1),
      mul_comm (Real.cos (radiansOf lat1)) (Real.cos (radiansOf lat2))]

/-- Claim C10: the hazard filter returns the same plain empty result
when the CIMC dataset was never loaded, when the LATITUDE/LONGITUDE
columns are missing, and when no site lies within the radius — the
three situations are indistinguishable to a caller — whereas the tract
filter distinguishes an absent dataset (`none`) from an empty result
(`some []`). -/
theorem cimc_filter_empty_indistinguishable :
    filter_cimc_within_radius exDist none 0 0 5 = [] ∧
    filter_cimc_within_radius exDist (some ⟨false, true, [exRow1]⟩) 0 0 5 = [] ∧
    filter_cimc_within_radius exDist (some ⟨true, true, [exFarRow]⟩) 0 0 5 = [] ∧
    filter_census_tracts_within_radius none 0 0 5 = none ∧
    filter_census_tracts_within_radius (some []) 0 0 5 = some [] ∧
    (none : Option (List CensusTract)) ≠ some [] :=
  ⟨rfl, rfl, by decide, rfl, rfl, by simp⟩

end GeoEquity
